import Mathlib

/-!
# The name-suggestion endpoint `pages/api/generate.js`

A shallow embedding of the request handler and of `generatePrompt`, followed by the
properties of the handler: which response it sends, which external call it issues and
which exceptions leave it.

JavaScript values are embedded as a small JSON-like datatype. The two library functions
`String.prototype.toUpperCase` and `String.prototype.toLowerCase` depend on the Unicode
case tables, which are not part of the repository: they are a parameter (`CaseMapping`).
The external client `openai.createCompletion` is a parameter as well: a function from
the request object to the outcome of the promise (`CallOutcome`).
-/

namespace Generate

/-! ## JavaScript values -/

/-- A JavaScript string: a finite sequence of UTF-16 code units. -/
abbrev JsString := List Nat

/-- Code units of a source literal. Every literal of the source file is ASCII, so the
code units are the code points. -/
def lit (s : String) : JsString := s.toList.map Char.toNat

/-- JSON-like JavaScript values: what a parsed request body, the client library and the
handler itself can produce. Functions are not values of this type. -/
inductive JsValue where
  | undefined
  | null
  | boolean (b : Bool)
  | number (q : ℚ)
  | string (s : JsString)
  | array (elems : List JsValue)
  | object (props : List (JsString × JsValue))

/-- ToBoolean, as used by `!x`, `x || y` and `if (x)`. -/
def truthy : JsValue → Bool
  | .undefined => false
  | .null => false
  | .boolean b => b
  | .number q => decide (q ≠ 0)
  | .string s => !s.isEmpty
  | .array _ => true
  | .object _ => true

/-- A `TypeError` object with the given message. The texts used below are those of V8,
the engine of Node.js. -/
def typeError (message : JsString) : JsValue :=
  .object [(lit "message", .string message)]

/-- The `TypeError` of a property read `base.key` on `undefined` or `null`. -/
def readError (base : String) (key : JsString) : JsValue :=
  typeError (lit ("Cannot read properties of " ++ base ++ " (reading '") ++ key ++ lit "')")

/-- Property read `v.key` for an identifier `key`. Reading a property of `undefined` or
`null` throws a `TypeError`; a property that is not there reads as `undefined`. -/
def getProp (v : JsValue) (key : JsString) : Except JsValue JsValue :=
  match v with
  | .undefined => .error (readError "undefined" key)
  | .null => .error (readError "null" key)
  | .object props => .ok ((props.lookup key).getD .undefined)
  | .string s => if key = lit "length" then .ok (.number s.length) else .ok .undefined
  | .array elems =>
    if key = lit "length" then .ok (.number elems.length) else .ok .undefined
  | .boolean _ => .ok .undefined
  | .number _ => .ok .undefined

/-- Indexed read `v[i]`. -/
def getIndex (v : JsValue) (i : Nat) : Except JsValue JsValue :=
  match v with
  | .undefined => .error (readError "undefined" (lit (toString i)))
  | .null => .error (readError "null" (lit (toString i)))
  | .array elems => .ok (elems.getD i .undefined)
  | .string s =>
    match s.get? i with
    | some c => .ok (.string [c])
    | none => .ok .undefined
  | .object props => .ok ((props.lookup (lit (toString i))).getD .undefined)
  | .boolean _ => .ok .undefined
  | .number _ => .ok .undefined

/-- A piece of the text that ToString gives: code units, or the digits of a number. The
digits are kept as the number, since `Number::toString` formats a floating-point value. -/
inductive Piece where
  | text (s : JsString)
  | digits (q : ℚ)

mutual
/-- ToString, as applied to a value interpolated into a template literal. An object is
converted by its `toString` method: the inherited one gives `[object Object]`; an own
property `toString` hides it and, not being a function, makes the conversion throw. An
array is converted by `join`. -/
def toStringValue : JsValue → Except JsValue (List Piece)
  | .undefined => .ok [.text (lit "undefined")]
  | .null => .ok [.text (lit "null")]
  | .boolean b => .ok [.text (if b then lit "true" else lit "false")]
  | .number q => .ok [.digits q]
  | .string s => .ok [.text s]
  | .array elems => joinElements elems
  | .object props =>
    match props.lookup (lit "toString") with
    | some _ => .error (typeError (lit "Cannot convert object to primitive value"))
    | none => .ok [.text (lit "[object Object]")]
termination_by structural v => v
/-- The method `Array.prototype.join` with the separator `,`: the elements `undefined`
and `null` give the empty text. -/
def joinElements : List JsValue → Except JsValue (List Piece)
  | [] => .ok []
  | v :: rest =>
    match toStringValue v, joinElements rest with
    | .error e, _ => .error e
    | .ok _, .error e => .error e
    | .ok t, .ok u =>
      .ok ((match v with
          | .undefined => []
          | .null => []
          | _ => t) ++ (if rest.isEmpty then [] else [Piece.text (lit ",")]) ++ u)
termination_by structural l => l
end

/-! ## Strings -/

/-- The code units that `String.prototype.trim` strips: ECMAScript WhiteSpace and
LineTerminator. -/
def isWhiteSpace (c : Nat) : Bool :=
  c = 0x09 || c = 0x0A || c = 0x0B || c = 0x0C || c = 0x0D || c = 0x20 || c = 0xA0 ||
  c = 0x1680 || (0x2000 ≤ c && c ≤ 0x200A) || c = 0x2028 || c = 0x2029 || c = 0x202F ||
  c = 0x205F || c = 0x3000 || c = 0xFEFF

/-- The method `String.prototype.trim`: strip white space at both ends. -/
def jsTrim (s : JsString) : JsString :=
  ((s.dropWhile isWhiteSpace).reverse.dropWhile isWhiteSpace).reverse

/-- The two case conversions of the JavaScript library, `String.prototype.toUpperCase`
and `String.prototype.toLowerCase`. -/
structure CaseMapping where
  toUpperCase : JsString → JsString
  toLowerCase : JsString → JsString

/-- Upper-casing of one ASCII code unit. -/
def asciiUpper (c : Nat) : Nat := if 97 ≤ c ∧ c ≤ 122 then c - 32 else c

/-- Lower-casing of one ASCII code unit. -/
def asciiLower (c : Nat) : Nat := if 65 ≤ c ∧ c ≤ 90 then c + 32 else c

/-- What every implementation of the two conversions does on ASCII strings. -/
def CaseMapping.AgreesOnAscii (cm : CaseMapping) : Prop :=
  ∀ s : JsString, (∀ c ∈ s, c < 128) →
    cm.toUpperCase s = s.map asciiUpper ∧ cm.toLowerCase s = s.map asciiLower

/-- The conversions restricted to ASCII letters, every other code unit kept. -/
def asciiCase : CaseMapping := ⟨List.map asciiUpper, List.map asciiLower⟩

/-! ## `generatePrompt` -/

/-- The text of the template before the interpolated name. -/
def promptHead : JsString :=
  lit ("Suggest three names for an animal that is a superhero.\n\n" ++
    "Animal: Cat\nNames: Captain Sharpclaw, Agent Fluffball, The Incredible Feline\n" ++
    "Animal: Dog\nNames: Ruff the Protector, Wonder Canine, Sir Barks-a-Lot\n" ++
    "Animal: ")

/-- The text of the template after the interpolated name. -/
def promptTail : JsString := lit "\nNames:"

/-- The expression `animal[0].toUpperCase() + animal.slice(1).toLowerCase()`, for a
string whose first code unit is `c`. -/
def capitalizedAnimal (cm : CaseMapping) (c : Nat) (animal : JsString) : JsString :=
  cm.toUpperCase [c] ++ cm.toLowerCase (animal.drop 1)

/-- The function `generatePrompt`. On the empty string `animal[0]` is `undefined` and the
method call on it throws. -/
def generatePrompt (cm : CaseMapping) (animal : JsString) : Except JsValue JsString :=
  match animal with
  | [] => .error (readError "undefined" (lit "toUpperCase"))
  | c :: _ => .ok (promptHead ++ capitalizedAnimal cm c animal ++ promptTail)

/-! ## The handler -/

/-- The process-wide configuration object. -/
structure Configuration where
  apiKey : JsValue

/-- The request object, of which the handler reads `body`. -/
structure Request where
  body : JsValue

/-- What `res.status(s).json(b)` sends. -/
structure Response where
  status : JsValue
  body : JsValue

/-- How the promise returned by `openai.createCompletion` settles. -/
inductive CallOutcome where
  | resolve (completion : JsValue)
  | reject (error : JsValue)

/-- One call of `console.error`: with several values, or with one text. -/
inductive LogEntry where
  | values (args : List JsValue)
  | line (text : List Piece)

/-- The observable behaviour of one invocation of the handler. -/
structure Run where
  calls : List JsValue
  logs : List LogEntry
  response : Option Response
  thrown : Option JsValue

/-- The body `{ error: { message } }`. -/
def errorBody (message : String) : JsValue :=
  .object [(lit "error", .object [(lit "message", .string (lit message))])]

/-- The argument of `openai.createCompletion`. -/
def completionRequest (prompt : JsString) : JsValue :=
  .object [(lit "model", .string (lit "text-davinci-003")),
    (lit "prompt", .string prompt),
    (lit "temperature", .number 0.6)]

/-- The statement `res.status(200).json({ result: completion.data.choices[0].text })`.
Nothing is sent before `json` runs, so a property read that throws while the argument is
evaluated leaves no response behind. -/
def respondSuccess (completion : JsValue) : Except JsValue Response := do
  let data ← getProp completion (lit "data")
  let choices ← getProp data (lit "choices")
  let choice ← getIndex choices 0
  let text ← getProp choice (lit "text")
  pure ⟨.number 200, .object [(lit "result", text)]⟩

/-- The try block: the external calls issued and either the response sent or the value
thrown. -/
def tryBlock (cm : CaseMapping) (openai : JsValue → CallOutcome) (animal : JsString) :
    List JsValue × Except JsValue Response :=
  match generatePrompt cm animal with
  | .error e => ([], .error e)
  | .ok prompt =>
    match openai (completionRequest prompt) with
    | .reject e => ([completionRequest prompt], .error e)
    | .resolve completion => ([completionRequest prompt], respondSuccess completion)

/-- The catch block: the log lines written and either the response sent or the value
thrown. In the else branch the template literal converts `error.message` to a string
before anything is logged or sent, and that conversion can throw. -/
def catchBlock (error : JsValue) : List LogEntry × Except JsValue Response :=
  match getProp error (lit "response") with
  | .error e => ([], .error e)
  | .ok response =>
    if truthy response then
      match getProp response (lit "status"), getProp response (lit "data") with
      | .ok status, .ok data => ([.values [status, data]], .ok ⟨status, data⟩)
      | .error e, _ => ([], .error e)
      | .ok _, .error e => ([], .error e)
    else
      match getProp error (lit "message") with
      | .error e => ([], .error e)
      | .ok message =>
        match toStringValue message with
        | .error e => ([], .error e)
        | .ok text =>
          ([.line (.text (lit "Error with OpenAI API request: ") :: text)],
            .ok ⟨.number 500, errorBody "An error occurred during your request."⟩)

/-- The try statement as a whole. -/
def tryCatch (cm : CaseMapping) (openai : JsValue → CallOutcome) (animal : JsString) :
    Run :=
  match tryBlock cm openai animal with
  | (calls, .ok r) => ⟨calls, [], some r, none⟩
  | (calls, .error e) =>
    match catchBlock e with
    | (logs, .ok r) => ⟨calls, logs, some r, none⟩
    | (logs, .error e2) => ⟨calls, logs, none, some e2⟩

/-- The exported request handler. -/
def handler (cm : CaseMapping) (configuration : Configuration)
    (openai : JsValue → CallOutcome) (req : Request) : Run :=
  if !truthy configuration.apiKey then
    ⟨[], [], some ⟨.number 500,
      errorBody "OpenAI API key not configured, please follow instructions in README.md"⟩,
      none⟩
  else
    match getProp req.body (lit "animal") with
    | .error e => ⟨[], [], none, some e⟩
    | .ok v =>
      match (if truthy v then v else .string (lit "")) with
      | .string animal =>
        if (jsTrim animal).length = 0 then
          ⟨[], [], some ⟨.number 400, errorBody "Please enter a valid animal"⟩, none⟩
        else
          tryCatch cm openai animal
      | _ => ⟨[], [], none, some (typeError (lit "animal.trim is not a function"))⟩


/-! ## Auxiliary facts -/

theorem all_dropWhile_iff (p : Nat → Bool) (l : List Nat) :
    (∀ x ∈ l.dropWhile p, p x = true) ↔ ∀ x ∈ l, p x = true := by
  induction l with
  | nil => simp
  | cons a l ih =>
    by_cases ha : p a = true
    · simp [List.dropWhile_cons, ha, ih]
    · simp [List.dropWhile_cons, ha]

theorem jsTrim_eq_nil_iff (s : JsString) :
    jsTrim s = [] ↔ ∀ c ∈ s, isWhiteSpace c = true := by
  unfold jsTrim
  rw [List.reverse_eq_nil_iff, List.dropWhile_eq_nil_iff]
  simp only [List.mem_reverse]
  exact all_dropWhile_iff isWhiteSpace s

theorem ne_nil_of_jsTrim_ne_nil {s : JsString} (h : jsTrim s ≠ []) : s ≠ [] := by
  rintro rfl
  exact h rfl

theorem handler_of_string (cm : CaseMapping) (cfg : Configuration)
    (openai : JsValue → CallOutcome) (req : Request) (animal : JsString)
    (hkey : truthy cfg.apiKey = true)
    (hbody : getProp req.body (lit "animal") = .ok (.string animal))
    (hvalid : jsTrim animal ≠ []) :
    handler cm cfg openai req = tryCatch cm openai animal := by
  have hne : animal ≠ [] := ne_nil_of_jsTrim_ne_nil hvalid
  have ht : truthy (.string animal) = true := by
    cases animal with
    | nil => exact absurd rfl hne
    | cons c rest => rfl
  simp [handler, hkey, hbody, ht, hvalid]


theorem truthy_undefined : truthy .undefined = false := rfl

theorem truthy_string_nil : truthy (.string []) = false := rfl

theorem truthy_string_cons (c : Nat) (rest : JsString) :
    truthy (.string (c :: rest)) = true := rfl

theorem jsTrim_lit_empty : jsTrim (lit "") = [] := rfl

theorem tryCatch_calls_eq (cm : CaseMapping) (openai : JsValue → CallOutcome)
    (animal : JsString) :
    (tryCatch cm openai animal).calls = (tryBlock cm openai animal).1 := by
  unfold tryCatch
  generalize tryBlock cm openai animal = tb
  obtain ⟨calls, e | r⟩ := tb
  · simp only
    generalize catchBlock e = cb
    obtain ⟨logs, e2 | r⟩ := cb <;> rfl
  · rfl

theorem tryCatch_calls (cm : CaseMapping) (openai : JsValue → CallOutcome)
    (c : Nat) (rest : JsString) :
    (tryCatch cm openai (c :: rest)).calls =
      [completionRequest (promptHead ++ capitalizedAnimal cm c (c :: rest) ++ promptTail)] := by
  rw [tryCatch_calls_eq]
  unfold tryBlock generatePrompt
  simp only
  cases openai (completionRequest
    (promptHead ++ capitalizedAnimal cm c (c :: rest) ++ promptTail)) <;> rfl

/-! ## Input validation -/

/-- C1: with the credential present, a request whose `animal` field is absent, empty or
made of white space only is answered with status 400 and the validation message; no
external call is issued, nothing is logged and nothing is thrown. -/
theorem invalid_animal_gives_400 (cm : CaseMapping) (cfg : Configuration)
    (openai : JsValue → CallOutcome) (req : Request) (props : List (JsString × JsValue))
    (hkey : truthy cfg.apiKey = true)
    (hbody : req.body = .object props)
    (hanimal : props.lookup (lit "animal") = none ∨
      ∃ s, props.lookup (lit "animal") = some (.string s) ∧
        ∀ c ∈ s, isWhiteSpace c = true) :
    handler cm cfg openai req =
      ⟨[], [], some ⟨.number 400, .object [(lit "error",
        .object [(lit "message", .string (lit "Please enter a valid animal"))])]⟩,
        none⟩ := by
  have hempty : jsTrim (lit "") = [] := rfl
  rcases hanimal with hnone | ⟨s, hsome, hws⟩
  · simp [handler, hkey, hbody, getProp, hnone, truthy_undefined, hempty, errorBody]
  · have hs : jsTrim s = [] := (jsTrim_eq_nil_iff s).mpr hws
    cases s with
    | nil => simp [handler, hkey, hbody, getProp, hsome, truthy_string_nil, hempty, errorBody]
    | cons c rest => simp [handler, hkey, hbody, getProp, hsome, truthy_string_cons, hs, errorBody]

theorem invalid_animal_gives_400_witness :
    (∀ c ∈ lit " \t\n", isWhiteSpace c = true) ∧
    handler asciiCase ⟨.string (lit "sk-test")⟩ (fun _ => .reject .null)
        ⟨.object [(lit "animal", .string (lit " \t\n"))]⟩ =
      ⟨[], [], some ⟨.number 400, .object [(lit "error",
        .object [(lit "message", .string (lit "Please enter a valid animal"))])]⟩,
        none⟩ :=
  ⟨by decide,
    invalid_animal_gives_400 asciiCase ⟨.string (lit "sk-test")⟩ (fun _ => .reject .null)
      ⟨.object [(lit "animal", .string (lit " \t\n"))]⟩
      [(lit "animal", .string (lit " \t\n"))] rfl rfl
      (Or.inr ⟨lit " \t\n", rfl, by decide⟩)⟩

/-! ## Configuration check -/

/-- C2: when the credential is absent (`undefined`, or the empty string) every request,
whatever its body, is answered with status 500 and the configuration message; the check
precedes input validation, so the answer is never the 400 of an invalid animal. -/
theorem missing_credential_gives_500 (cm : CaseMapping) (cfg : Configuration)
    (openai : JsValue → CallOutcome) (req : Request)
    (hkey : cfg.apiKey = .undefined ∨ cfg.apiKey = .string (lit "")) :
    handler cm cfg openai req =
      ⟨[], [], some ⟨.number 500, .object [(lit "error", .object [(lit "message",
        .string (lit
          "OpenAI API key not configured, please follow instructions in README.md"))])]⟩,
        none⟩ ∧
    (handler cm cfg openai req).response ≠
      some ⟨.number 400, .object [(lit "error",
        .object [(lit "message", .string (lit "Please enter a valid animal"))])]⟩ := by
  have hfalse : truthy cfg.apiKey = false := by
    rcases hkey with h | h <;> rw [h] <;> rfl
  have hrun : handler cm cfg openai req =
      ⟨[], [], some ⟨.number 500, .object [(lit "error", .object [(lit "message",
        .string (lit
          "OpenAI API key not configured, please follow instructions in README.md"))])]⟩,
        none⟩ := by
    simp [handler, hfalse, errorBody]
  refine ⟨hrun, ?_⟩
  rw [hrun]
  intro h
  have h2 := congrArg (fun r => r.map Response.status) h
  simp at h2

theorem missing_credential_gives_500_witness :
    handler asciiCase ⟨.undefined⟩ (fun _ => .resolve .null)
        ⟨.object [(lit "animal", .string (lit "  "))]⟩ =
      ⟨[], [], some ⟨.number 500, .object [(lit "error", .object [(lit "message",
        .string (lit
          "OpenAI API key not configured, please follow instructions in README.md"))])]⟩,
        none⟩ ∧
    handler asciiCase ⟨.undefined⟩ (fun _ => .resolve .null) ⟨.undefined⟩ =
      ⟨[], [], some ⟨.number 500, .object [(lit "error", .object [(lit "message",
        .string (lit
          "OpenAI API key not configured, please follow instructions in README.md"))])]⟩,
        none⟩ :=
  ⟨(missing_credential_gives_500 asciiCase ⟨.undefined⟩ (fun _ => .resolve .null)
      ⟨.object [(lit "animal", .string (lit "  "))]⟩ (Or.inl rfl)).1,
    (missing_credential_gives_500 asciiCase ⟨.undefined⟩ (fun _ => .resolve .null)
      ⟨.undefined⟩ (Or.inl rfl)).1⟩


/-! ## The external call and the mapping of its outcome -/

theorem tryCatch_of_ok {cm : CaseMapping} {openai : JsValue → CallOutcome}
    {animal : JsString} {calls : List JsValue} {r : Response}
    (h : tryBlock cm openai animal = (calls, .ok r)) :
    tryCatch cm openai animal = ⟨calls, [], some r, none⟩ := by
  unfold tryCatch
  rw [h]

theorem tryCatch_of_error {cm : CaseMapping} {openai : JsValue → CallOutcome}
    {animal : JsString} {calls : List JsValue} {e : JsValue} {logs : List LogEntry}
    {r : Response}
    (h : tryBlock cm openai animal = (calls, .error e))
    (hc : catchBlock e = (logs, .ok r)) :
    tryCatch cm openai animal = ⟨calls, logs, some r, none⟩ := by
  unfold tryCatch
  rw [h]
  simp only
  rw [hc]

theorem generatePrompt_of_ne_nil (cm : CaseMapping) {animal : JsString}
    (h : animal ≠ []) : ∃ prompt, generatePrompt cm animal = .ok prompt := by
  cases animal with
  | nil => exact absurd rfl h
  | cons c rest => exact ⟨_, rfl⟩

theorem tryBlock_of_resolve {cm : CaseMapping} {openai : JsValue → CallOutcome}
    {animal prompt : JsString} {completion : JsValue}
    (hp : generatePrompt cm animal = .ok prompt)
    (hcall : openai (completionRequest prompt) = .resolve completion) :
    tryBlock cm openai animal = ([completionRequest prompt], respondSuccess completion) := by
  unfold tryBlock
  rw [hp]
  simp only
  rw [hcall]

theorem tryBlock_of_reject {cm : CaseMapping} {openai : JsValue → CallOutcome}
    {animal prompt : JsString} {e : JsValue}
    (hp : generatePrompt cm animal = .ok prompt)
    (hcall : openai (completionRequest prompt) = .reject e) :
    tryBlock cm openai animal = ([completionRequest prompt], .error e) := by
  unfold tryBlock
  rw [hp]
  simp only
  rw [hcall]

theorem getProp_of_lookup {props : List (JsString × JsValue)} {key : JsString}
    {v : JsValue} (h : props.lookup key = some v) :
    getProp (.object props) key = .ok v := by
  simp [getProp, h]

/-- C3: with the credential present and a valid animal, when the external call resolves
with a non-empty list of choices whose first element has the text `t`, the handler
answers with status 200 and the body `{ result: t }`, whatever the later choices are. -/
theorem success_returns_first_choice_text (cm : CaseMapping) (cfg : Configuration)
    (openai : JsValue → CallOutcome) (req : Request) (props : List (JsString × JsValue))
    (animal : JsString) (completion data choice : JsValue) (rest : List JsValue)
    (t : JsString)
    (hkey : truthy cfg.apiKey = true)
    (hbody : req.body = .object props)
    (hanimal : props.lookup (lit "animal") = some (.string animal))
    (hvalid : jsTrim animal ≠ [])
    (hcall : ∀ prompt, generatePrompt cm animal = .ok prompt →
      openai (completionRequest prompt) = .resolve completion)
    (hdata : getProp completion (lit "data") = .ok data)
    (hchoices : getProp data (lit "choices") = .ok (.array (choice :: rest)))
    (htext : getProp choice (lit "text") = .ok (.string t)) :
    ∃ prompt, generatePrompt cm animal = .ok prompt ∧
      handler cm cfg openai req =
        ⟨[completionRequest prompt], [],
          some ⟨.number 200, .object [(lit "result", .string t)]⟩, none⟩ := by
  obtain ⟨prompt, hp⟩ := generatePrompt_of_ne_nil cm (ne_nil_of_jsTrim_ne_nil hvalid)
  refine ⟨prompt, hp, ?_⟩
  have hread : getProp req.body (lit "animal") = .ok (.string animal) := by
    rw [hbody]; exact getProp_of_lookup hanimal
  rw [handler_of_string cm cfg openai req animal hkey hread hvalid]
  apply tryCatch_of_ok
  rw [tryBlock_of_resolve hp (hcall prompt hp)]
  have hr : respondSuccess completion =
      .ok ⟨.number 200, .object [(lit "result", .string t)]⟩ := by
    unfold respondSuccess
    rw [hdata]
    show (getProp data (lit "choices") >>= _) = _
    rw [hchoices]
    show (getProp choice (lit "text") >>= _) = _
    rw [htext]
    rfl
  rw [hr]


theorem success_returns_first_choice_text_witness :
    jsTrim (lit "cat") ≠ [] ∧
    ∃ prompt, generatePrompt asciiCase (lit "cat") = .ok prompt ∧
      handler asciiCase ⟨.string (lit "sk-test")⟩
          (fun _ => .resolve (.object [(lit "data", .object [(lit "choices",
            .array [.object [(lit "text", .string (lit " Name1, Name2, Name3"))],
              .object [(lit "text", .string (lit " Other"))]])])]))
          ⟨.object [(lit "animal", .string (lit "cat"))]⟩ =
        ⟨[completionRequest prompt], [],
          some ⟨.number 200, .object [(lit "result",
            .string (lit " Name1, Name2, Name3"))]⟩, none⟩ :=
  ⟨by decide,
    success_returns_first_choice_text asciiCase ⟨.string (lit "sk-test")⟩
      (fun _ => .resolve (.object [(lit "data", .object [(lit "choices",
        .array [.object [(lit "text", .string (lit " Name1, Name2, Name3"))],
          .object [(lit "text", .string (lit " Other"))]])])]))
      ⟨.object [(lit "animal", .string (lit "cat"))]⟩
      [(lit "animal", .string (lit "cat"))] (lit "cat")
      (.object [(lit "data", .object [(lit "choices",
        .array [.object [(lit "text", .string (lit " Name1, Name2, Name3"))],
          .object [(lit "text", .string (lit " Other"))]])])])
      (.object [(lit "choices",
        .array [.object [(lit "text", .string (lit " Name1, Name2, Name3"))],
          .object [(lit "text", .string (lit " Other"))]])])
      (.object [(lit "text", .string (lit " Name1, Name2, Name3"))])
      [.object [(lit "text", .string (lit " Other"))]]
      (lit " Name1, Name2, Name3")
      rfl rfl rfl (by decide) (fun _ _ => rfl) rfl rfl rfl⟩

/-- C4: with the credential present and a valid animal, when the external call fails
with an error that carries a response object of status `s` and body `b`, the handler
answers with exactly the status `s` and the body `b`, and logs both. -/
theorem structured_failure_is_forwarded (cm : CaseMapping) (cfg : Configuration)
    (openai : JsValue → CallOutcome) (req : Request) (props : List (JsString × JsValue))
    (animal : JsString) (eprops rprops : List (JsString × JsValue)) (s b : JsValue)
    (hkey : truthy cfg.apiKey = true)
    (hbody : req.body = .object props)
    (hanimal : props.lookup (lit "animal") = some (.string animal))
    (hvalid : jsTrim animal ≠ [])
    (hcall : ∀ prompt, generatePrompt cm animal = .ok prompt →
      openai (completionRequest prompt) = .reject (.object eprops))
    (hresponse : eprops.lookup (lit "response") = some (.object rprops))
    (hstatus : rprops.lookup (lit "status") = some s)
    (hdata : rprops.lookup (lit "data") = some b) :
    ∃ prompt, generatePrompt cm animal = .ok prompt ∧
      handler cm cfg openai req =
        ⟨[completionRequest prompt], [.values [s, b]], some ⟨s, b⟩, none⟩ := by
  obtain ⟨prompt, hp⟩ := generatePrompt_of_ne_nil cm (ne_nil_of_jsTrim_ne_nil hvalid)
  refine ⟨prompt, hp, ?_⟩
  have hread : getProp req.body (lit "animal") = .ok (.string animal) := by
    rw [hbody]; exact getProp_of_lookup hanimal
  rw [handler_of_string cm cfg openai req animal hkey hread hvalid]
  apply tryCatch_of_error (tryBlock_of_reject hp (hcall prompt hp))
  unfold catchBlock
  rw [getProp_of_lookup hresponse]
  have ht : truthy (.object rprops) = true := rfl
  simp only [ht, if_true]
  rw [getProp_of_lookup hstatus, getProp_of_lookup hdata]

theorem structured_failure_is_forwarded_witness :
    jsTrim (lit "cat") ≠ [] ∧
    ∃ prompt, generatePrompt asciiCase (lit "cat") = .ok prompt ∧
      handler asciiCase ⟨.string (lit "sk-test")⟩
          (fun _ => .reject (.object [(lit "message", .string (lit "Too Many Requests")),
            (lit "response", .object [(lit "status", .number 429),
              (lit "data", .object [(lit "error", .string (lit "rate limited"))])])]))
          ⟨.object [(lit "animal", .string (lit "cat"))]⟩ =
        ⟨[completionRequest prompt],
          [.values [.number 429, .object [(lit "error", .string (lit "rate limited"))]]],
          some ⟨.number 429, .object [(lit "error", .string (lit "rate limited"))]⟩,
          none⟩ :=
  ⟨by decide,
    structured_failure_is_forwarded asciiCase ⟨.string (lit "sk-test")⟩
      (fun _ => .reject (.object [(lit "message", .string (lit "Too Many Requests")),
        (lit "response", .object [(lit "status", .number 429),
          (lit "data", .object [(lit "error", .string (lit "rate limited"))])])]))
      ⟨.object [(lit "animal", .string (lit "cat"))]⟩
      [(lit "animal", .string (lit "cat"))] (lit "cat")
      [(lit "message", .string (lit "Too Many Requests")),
        (lit "response", .object [(lit "status", .number 429),
          (lit "data", .object [(lit "error", .string (lit "rate limited"))])])]
      [(lit "status", .number 429),
        (lit "data", .object [(lit "error", .string (lit "rate limited"))])]
      (.number 429) (.object [(lit "error", .string (lit "rate limited"))])
      rfl rfl rfl (by decide) (fun _ _ => rfl) rfl rfl rfl⟩

/-- C5: with the credential present and a valid animal, when the external call fails
with an error that carries no response object, the handler answers with status 500 and
the generic message, whatever the message of the error is, as long as the message can be
interpolated into the log line (every string can, and so can an absent message). -/
theorem transport_failure_gives_500 (cm : CaseMapping) (cfg : Configuration)
    (openai : JsValue → CallOutcome) (req : Request) (props : List (JsString × JsValue))
    (animal : JsString) (eprops : List (JsString × JsValue)) (text : List Piece)
    (hkey : truthy cfg.apiKey = true)
    (hbody : req.body = .object props)
    (hanimal : props.lookup (lit "animal") = some (.string animal))
    (hvalid : jsTrim animal ≠ [])
    (hcall : ∀ prompt, generatePrompt cm animal = .ok prompt →
      openai (completionRequest prompt) = .reject (.object eprops))
    (hresponse : eprops.lookup (lit "response") = none ∨
      eprops.lookup (lit "response") = some .undefined)
    (hmessage : toStringValue ((eprops.lookup (lit "message")).getD .undefined) =
      .ok text) :
    ∃ prompt, generatePrompt cm animal = .ok prompt ∧
      handler cm cfg openai req =
        ⟨[completionRequest prompt],
          [.line (.text (lit "Error with OpenAI API request: ") :: text)],
          some ⟨.number 500, .object [(lit "error", .object [(lit "message",
            .string (lit "An error occurred during your request."))])]⟩, none⟩ := by
  obtain ⟨prompt, hp⟩ := generatePrompt_of_ne_nil cm (ne_nil_of_jsTrim_ne_nil hvalid)
  refine ⟨prompt, hp, ?_⟩
  have hread : getProp req.body (lit "animal") = .ok (.string animal) := by
    rw [hbody]; exact getProp_of_lookup hanimal
  rw [handler_of_string cm cfg openai req animal hkey hread hvalid]
  apply tryCatch_of_error (tryBlock_of_reject hp (hcall prompt hp))
  have hr : getProp (.object eprops) (lit "response") = .ok .undefined := by
    rcases hresponse with h | h <;> simp [getProp, h]
  have hm : getProp (.object eprops) (lit "message") =
      .ok ((eprops.lookup (lit "message")).getD .undefined) := rfl
  unfold catchBlock
  rw [hr]
  simp only [truthy_undefined]
  rw [hm]
  simp only [Bool.false_eq_true, if_false]
  rw [hmessage]
  rfl

theorem transport_failure_gives_500_witness :
    jsTrim (lit "cat") ≠ [] ∧
    ∃ prompt, generatePrompt asciiCase (lit "cat") = .ok prompt ∧
      handler asciiCase ⟨.string (lit "sk-test")⟩
          (fun _ => .reject (.object [(lit "message", .string (lit "ECONNREFUSED"))]))
          ⟨.object [(lit "animal", .string (lit "cat"))]⟩ =
        ⟨[completionRequest prompt],
          [.line [.text (lit "Error with OpenAI API request: "),
            .text (lit "ECONNREFUSED")]],
          some ⟨.number 500, .object [(lit "error", .object [(lit "message",
            .string (lit "An error occurred during your request."))])]⟩, none⟩ :=
  ⟨by decide,
    transport_failure_gives_500 asciiCase ⟨.string (lit "sk-test")⟩
      (fun _ => .reject (.object [(lit "message", .string (lit "ECONNREFUSED"))]))
      ⟨.object [(lit "animal", .string (lit "cat"))]⟩
      [(lit "animal", .string (lit "cat"))] (lit "cat")
      [(lit "message", .string (lit "ECONNREFUSED"))] [.text (lit "ECONNREFUSED")]
      rfl rfl rfl (by decide) (fun _ _ => rfl) (Or.inl rfl) rfl⟩

theorem catchBlock_typeError (message : JsString) :
    catchBlock (typeError message) =
      ([.line [.text (lit "Error with OpenAI API request: "), .text message]],
        .ok ⟨.number 500, errorBody "An error occurred during your request."⟩) := rfl

/-- C10: with the credential present and a valid animal, when the external call resolves
with an empty list of choices, reading the text of choice 0 throws inside the try block,
the thrown error has no response object, and the handler answers with status 500 and the
generic message, not with status 200. -/
theorem empty_choices_gives_500 (cm : CaseMapping) (cfg : Configuration)
    (openai : JsValue → CallOutcome) (req : Request) (props : List (JsString × JsValue))
    (animal : JsString) (completion data : JsValue)
    (hkey : truthy cfg.apiKey = true)
    (hbody : req.body = .object props)
    (hanimal : props.lookup (lit "animal") = some (.string animal))
    (hvalid : jsTrim animal ≠ [])
    (hcall : ∀ prompt, generatePrompt cm animal = .ok prompt →
      openai (completionRequest prompt) = .resolve completion)
    (hdata : getProp completion (lit "data") = .ok data)
    (hchoices : getProp data (lit "choices") = .ok (.array [])) :
    (∃ e, respondSuccess completion = .error e ∧
      getProp e (lit "response") = .ok .undefined) ∧
    (handler cm cfg openai req).response =
      some ⟨.number 500, .object [(lit "error", .object [(lit "message",
        .string (lit "An error occurred during your request."))])]⟩ ∧
    (handler cm cfg openai req).thrown = none ∧
    ∀ body, (handler cm cfg openai req).response ≠ some ⟨.number 200, body⟩ := by
  obtain ⟨prompt, hp⟩ := generatePrompt_of_ne_nil cm (ne_nil_of_jsTrim_ne_nil hvalid)
  have hread : getProp req.body (lit "animal") = .ok (.string animal) := by
    rw [hbody]; exact getProp_of_lookup hanimal
  have hr : respondSuccess completion =
      .error (readError "undefined" (lit "text")) := by
    unfold respondSuccess
    rw [hdata]
    show (getProp data (lit "choices") >>= _) = _
    rw [hchoices]
    rfl
  have hrun : handler cm cfg openai req =
      ⟨[completionRequest prompt],
        [.line [.text (lit "Error with OpenAI API request: "),
          .text (lit "Cannot read properties of undefined (reading 'text')")]],
        some ⟨.number 500, .object [(lit "error", .object [(lit "message",
          .string (lit "An error occurred during your request."))])]⟩, none⟩ := by
    rw [handler_of_string cm cfg openai req animal hkey hread hvalid]
    have htry : tryBlock cm openai animal = ([completionRequest prompt],
        .error (readError "undefined" (lit "text"))) := by
      rw [tryBlock_of_resolve hp (hcall prompt hp), hr]
    exact tryCatch_of_error htry rfl
  refine ⟨⟨_, hr, rfl⟩, ?_, ?_, ?_⟩
  · rw [hrun]
  · rw [hrun]
  · intro body h
    rw [hrun] at h
    have h2 := congrArg (fun r => r.map Response.status) h
    simp at h2

theorem empty_choices_gives_500_witness :
    jsTrim (lit "cat") ≠ [] ∧
    (handler asciiCase ⟨.string (lit "sk-test")⟩
        (fun _ => .resolve (.object [(lit "data",
          .object [(lit "choices", .array [])])]))
        ⟨.object [(lit "animal", .string (lit "cat"))]⟩).response =
      some ⟨.number 500, .object [(lit "error", .object [(lit "message",
        .string (lit "An error occurred during your request."))])]⟩ :=
  ⟨by decide,
    (empty_choices_gives_500 asciiCase ⟨.string (lit "sk-test")⟩
      (fun _ => .resolve (.object [(lit "data",
        .object [(lit "choices", .array [])])]))
      ⟨.object [(lit "animal", .string (lit "cat"))]⟩
      [(lit "animal", .string (lit "cat"))] (lit "cat")
      (.object [(lit "data", .object [(lit "choices", .array [])])])
      (.object [(lit "choices", .array [])])
      rfl rfl rfl (by decide) (fun _ _ => rfl) rfl rfl).2.1⟩

/-! ## The prompt -/

/-- C6: for a non-empty animal string `generatePrompt` returns a prompt that contains the
two example blocks verbatim, each as whole lines, and that ends with the line `Animal: `
and the capitalized animal followed by the line `Names:`, with nothing after it. -/
theorem generatePrompt_shape (cm : CaseMapping) (animal : JsString) (h : animal ≠ []) :
    ∃ c rest prompt, animal = c :: rest ∧ generatePrompt cm animal = .ok prompt ∧
      lit "\nAnimal: Cat\nNames: Captain Sharpclaw, Agent Fluffball, The Incredible Feline\n"
        <:+: prompt ∧
      lit "\nAnimal: Dog\nNames: Ruff the Protector, Wonder Canine, Sir Barks-a-Lot\n"
        <:+: prompt ∧
      lit "\nAnimal: " ++ (cm.toUpperCase [c] ++ cm.toLowerCase rest) ++ lit "\nNames:"
        <:+ prompt := by
  cases animal with
  | nil => exact absurd rfl h
  | cons c rest =>
    refine ⟨c, rest, _, rfl, rfl, ?_, ?_, ?_⟩
    · have hcat : promptHead =
          lit "Suggest three names for an animal that is a superhero.\n" ++
          lit "\nAnimal: Cat\nNames: Captain Sharpclaw, Agent Fluffball, The Incredible Feline\n" ++
          lit "Animal: Dog\nNames: Ruff the Protector, Wonder Canine, Sir Barks-a-Lot\nAnimal: " := by
        rfl
      rw [hcat]
      exact ⟨lit "Suggest three names for an animal that is a superhero.\n",
        lit "Animal: Dog\nNames: Ruff the Protector, Wonder Canine, Sir Barks-a-Lot\nAnimal: "
          ++ capitalizedAnimal cm c (c :: rest) ++ promptTail,
        by simp only [List.append_assoc]⟩
    · have hdog : promptHead =
          lit ("Suggest three names for an animal that is a superhero.\n\nAnimal: Cat\n" ++
            "Names: Captain Sharpclaw, Agent Fluffball, The Incredible Feline") ++
          lit "\nAnimal: Dog\nNames: Ruff the Protector, Wonder Canine, Sir Barks-a-Lot\n" ++
          lit "Animal: " := by
        rfl
      rw [hdog]
      exact ⟨lit ("Suggest three names for an animal that is a superhero.\n\nAnimal: Cat\n" ++
          "Names: Captain Sharpclaw, Agent Fluffball, The Incredible Feline"),
        lit "Animal: " ++ capitalizedAnimal cm c (c :: rest) ++ promptTail,
        by simp only [List.append_assoc]⟩
    · have hlast : promptHead =
          lit ("Suggest three names for an animal that is a superhero.\n\nAnimal: Cat\n" ++
            "Names: Captain Sharpclaw, Agent Fluffball, The Incredible Feline\n" ++
            "Animal: Dog\nNames: Ruff the Protector, Wonder Canine, Sir Barks-a-Lot") ++
          lit "\nAnimal: " := by
        rfl
      rw [hlast]
      exact ⟨lit ("Suggest three names for an animal that is a superhero.\n\nAnimal: Cat\n" ++
          "Names: Captain Sharpclaw, Agent Fluffball, The Incredible Feline\n" ++
          "Animal: Dog\nNames: Ruff the Protector, Wonder Canine, Sir Barks-a-Lot"),
        by simp only [List.append_assoc, capitalizedAnimal, promptTail, List.drop_succ_cons,
          List.drop_zero]⟩

theorem generatePrompt_shape_witness :
    lit "cat" ≠ [] ∧
    ∃ c rest prompt, lit "cat" = c :: rest ∧ generatePrompt asciiCase (lit "cat") = .ok prompt ∧
      lit "\nAnimal: Cat\nNames: Captain Sharpclaw, Agent Fluffball, The Incredible Feline\n"
        <:+: prompt ∧
      lit "\nAnimal: Dog\nNames: Ruff the Protector, Wonder Canine, Sir Barks-a-Lot\n"
        <:+: prompt ∧
      lit "\nAnimal: " ++ (asciiCase.toUpperCase [c] ++ asciiCase.toLowerCase rest) ++
        lit "\nNames:" <:+ prompt :=
  ⟨by decide, generatePrompt_shape asciiCase (lit "cat") (by decide)⟩


theorem asciiCase_agreesOnAscii : asciiCase.AgreesOnAscii := fun _ _ => ⟨rfl, rfl⟩

theorem handler_calls_of_valid (cm : CaseMapping) (cfg : Configuration)
    (openai : JsValue → CallOutcome) (req : Request) (props : List (JsString × JsValue))
    (c : Nat) (rest : JsString)
    (hkey : truthy cfg.apiKey = true)
    (hbody : req.body = .object props)
    (hanimal : props.lookup (lit "animal") = some (.string (c :: rest)))
    (hvalid : jsTrim (c :: rest) ≠ []) :
    (handler cm cfg openai req).calls =
      [completionRequest
        (promptHead ++ (cm.toUpperCase [c] ++ cm.toLowerCase rest) ++ promptTail)] := by
  have hread : getProp req.body (lit "animal") = .ok (.string (c :: rest)) := by
    rw [hbody]; exact getProp_of_lookup hanimal
  rw [handler_of_string cm cfg openai req (c :: rest) hkey hread hvalid, tryCatch_calls]
  rfl

/-- C7: the name interpolated into the prompt is the first code unit of the animal as it
was sent, untrimmed, upper-cased, followed by the rest lower-cased: the prompt is the
fixed text up to `Animal: `, that name, a newline and `Names:`. So `cat` and `CAT` make
the prompt end with `Animal: Cat`, `c` with `Animal: C`, and for ` cat` the upper-casing
falls on the leading space and the prompt ends with `Animal:  cat`. The handler passes
the untrimmed string on: the prompt of its call is built from the animal as sent. -/
theorem capitalization_of_untrimmed_animal (cm : CaseMapping) (hcm : cm.AgreesOnAscii) :
    (∀ (c : Nat) (rest : JsString), generatePrompt cm (c :: rest) =
      .ok (lit ("Suggest three names for an animal that is a superhero.\n\n" ++
        "Animal: Cat\nNames: Captain Sharpclaw, Agent Fluffball, The Incredible Feline\n" ++
        "Animal: Dog\nNames: Ruff the Protector, Wonder Canine, Sir Barks-a-Lot\n" ++
        "Animal: ") ++
        (cm.toUpperCase [c] ++ cm.toLowerCase rest) ++ lit "\nNames:")) ∧
    (∃ p, generatePrompt cm (lit "cat") = .ok p ∧ lit "\nAnimal: Cat\nNames:" <:+ p) ∧
    (∃ p, generatePrompt cm (lit "CAT") = .ok p ∧ lit "\nAnimal: Cat\nNames:" <:+ p) ∧
    (∃ p, generatePrompt cm (lit "c") = .ok p ∧ lit "\nAnimal: C\nNames:" <:+ p) ∧
    (∃ p, generatePrompt cm (lit " cat") = .ok p ∧ lit "\nAnimal:  cat\nNames:" <:+ p) ∧
    (∀ (cfg : Configuration) (openai : JsValue → CallOutcome) (req : Request)
      (props : List (JsString × JsValue)) (c : Nat) (rest : JsString),
      truthy cfg.apiKey = true → req.body = .object props →
      props.lookup (lit "animal") = some (.string (c :: rest)) →
      jsTrim (c :: rest) ≠ [] →
      (handler cm cfg openai req).calls =
        [.object [(lit "model", .string (lit "text-davinci-003")),
          (lit "prompt", .string (lit ("Suggest three names for an animal that is a superhero.\n\n" ++
        "Animal: Cat\nNames: Captain Sharpclaw, Agent Fluffball, The Incredible Feline\n" ++
        "Animal: Dog\nNames: Ruff the Protector, Wonder Canine, Sir Barks-a-Lot\n" ++
        "Animal: ") ++
            (cm.toUpperCase [c] ++ cm.toLowerCase rest) ++ lit "\nNames:")),
          (lit "temperature", .number 0.6)]]) := by
  have hex : ∀ (c : Nat) (rest : JsString), (∀ x ∈ c :: rest, x < 128) →
      generatePrompt cm (c :: rest) =
        .ok (promptHead ++ ([asciiUpper c] ++ rest.map asciiLower) ++ promptTail) := by
    intro c rest hascii
    have h1 := (hcm [c] (fun x hx => hascii x (by
      rw [List.mem_singleton] at hx; rw [hx]; exact List.mem_cons_self c rest))).1
    have h2 := (hcm rest (fun x hx => hascii x (List.mem_cons_of_mem c hx))).2
    show Except.ok (promptHead ++ (cm.toUpperCase [c] ++ cm.toLowerCase rest) ++ promptTail)
      = _
    rw [h1, h2]
    rfl
  refine ⟨fun c rest => rfl, ?_, ?_, ?_, ?_, ?_⟩
  · exact ⟨_, hex 99 (lit "at") (by decide), (lit ("Suggest three names for an animal that is a superhero.\n\n" ++
      "Animal: Cat\nNames: Captain Sharpclaw, Agent Fluffball, The Incredible Feline\n" ++
      "Animal: Dog\nNames: Ruff the Protector, Wonder Canine, Sir Barks-a-Lot")), rfl⟩
  · exact ⟨_, hex 67 (lit "AT") (by decide), (lit ("Suggest three names for an animal that is a superhero.\n\n" ++
      "Animal: Cat\nNames: Captain Sharpclaw, Agent Fluffball, The Incredible Feline\n" ++
      "Animal: Dog\nNames: Ruff the Protector, Wonder Canine, Sir Barks-a-Lot")), rfl⟩
  · exact ⟨_, hex 99 [] (by decide), (lit ("Suggest three names for an animal that is a superhero.\n\n" ++
      "Animal: Cat\nNames: Captain Sharpclaw, Agent Fluffball, The Incredible Feline\n" ++
      "Animal: Dog\nNames: Ruff the Protector, Wonder Canine, Sir Barks-a-Lot")), rfl⟩
  · exact ⟨_, hex 32 (lit "cat") (by decide), (lit ("Suggest three names for an animal that is a superhero.\n\n" ++
      "Animal: Cat\nNames: Captain Sharpclaw, Agent Fluffball, The Incredible Feline\n" ++
      "Animal: Dog\nNames: Ruff the Protector, Wonder Canine, Sir Barks-a-Lot")), rfl⟩
  · intro cfg openai req props c rest hkey hbody hanimal hvalid
    exact handler_calls_of_valid cm cfg openai req props c rest hkey hbody hanimal hvalid

theorem capitalization_of_untrimmed_animal_witness :
    asciiCase.AgreesOnAscii ∧
    (∃ p, generatePrompt asciiCase (lit "CAT") = .ok p ∧
      lit "\nAnimal: Cat\nNames:" <:+ p) ∧
    (handler asciiCase ⟨.string (lit "sk-test")⟩ (fun _ => .reject .null)
        ⟨.object [(lit "animal", .string (lit " cAT"))]⟩).calls =
      [.object [(lit "model", .string (lit "text-davinci-003")),
        (lit "prompt", .string (lit ("Suggest three names for an animal that is a superhero.\n\n" ++
        "Animal: Cat\nNames: Captain Sharpclaw, Agent Fluffball, The Incredible Feline\n" ++
        "Animal: Dog\nNames: Ruff the Protector, Wonder Canine, Sir Barks-a-Lot\n" ++
        "Animal: ") ++
          (asciiCase.toUpperCase [32] ++ asciiCase.toLowerCase (lit "cAT")) ++
          lit "\nNames:")),
        (lit "temperature", .number 0.6)]] :=
  ⟨asciiCase_agreesOnAscii,
    (capitalization_of_untrimmed_animal asciiCase asciiCase_agreesOnAscii).2.2.1,
    (capitalization_of_untrimmed_animal asciiCase asciiCase_agreesOnAscii).2.2.2.2.2
      ⟨.string (lit "sk-test")⟩ (fun _ => .reject .null)
      ⟨.object [(lit "animal", .string (lit " cAT"))]⟩
      [(lit "animal", .string (lit " cAT"))] 32 (lit "cAT") rfl rfl rfl (by decide)⟩

theorem handler_of_missing_key (cm : CaseMapping) (cfg : Configuration)
    (openai : JsValue → CallOutcome) (req : Request) (hkey : truthy cfg.apiKey = false) :
    handler cm cfg openai req =
      ⟨[], [], some ⟨.number 500,
        errorBody "OpenAI API key not configured, please follow instructions in README.md"⟩,
        none⟩ := by
  simp [handler, hkey]

theorem handler_of_falsy (cm : CaseMapping) (cfg : Configuration)
    (openai : JsValue → CallOutcome) (req : Request) (v : JsValue)
    (hkey : truthy cfg.apiKey = true)
    (hread : getProp req.body (lit "animal") = .ok v)
    (hv : truthy v = false) :
    handler cm cfg openai req =
      ⟨[], [], some ⟨.number 400, errorBody "Please enter a valid animal"⟩, none⟩ := by
  simp [handler, hkey, hread, hv, jsTrim_lit_empty]

theorem handler_of_blank (cm : CaseMapping) (cfg : Configuration)
    (openai : JsValue → CallOutcome) (req : Request) (s : JsString)
    (hkey : truthy cfg.apiKey = true)
    (hread : getProp req.body (lit "animal") = .ok (.string s))
    (hs : jsTrim s = []) :
    handler cm cfg openai req =
      ⟨[], [], some ⟨.number 400, errorBody "Please enter a valid animal"⟩, none⟩ := by
  cases s with
  | nil => exact handler_of_falsy cm cfg openai req _ hkey hread rfl
  | cons c rest => simp [handler, hkey, hread, truthy_string_cons, hs]

theorem tryBlock_calls_length (cm : CaseMapping) (openai : JsValue → CallOutcome)
    (animal : JsString) : (tryBlock cm openai animal).1.length ≤ 1 := by
  unfold tryBlock
  cases generatePrompt cm animal with
  | error e => simp
  | ok prompt =>
    simp only
    cases openai (completionRequest prompt) <;> simp

theorem handler_calls_length (cm : CaseMapping) (cfg : Configuration)
    (openai : JsValue → CallOutcome) (req : Request) :
    (handler cm cfg openai req).calls.length ≤ 1 := by
  unfold handler
  split
  · simp
  · split
    · simp
    · split
      · split
        · simp
        · rw [tryCatch_calls_eq]
          exact tryBlock_calls_length cm openai _
      · simp

/-- C8: when the credential is present and the trimmed animal is not empty the handler
issues exactly one external call, with the model `text-davinci-003`, the prompt
`generatePrompt(animal)`, the temperature 0.6 and no other parameter, whether the call
succeeds or fails; when the credential is absent, or the animal is absent or blank, it
issues none; and it never issues more than one. -/
theorem external_call_issued_once_when_valid (cm : CaseMapping) (cfg : Configuration)
    (openai : JsValue → CallOutcome) (req : Request) :
    (∀ (props : List (JsString × JsValue)) (animal : JsString),
      truthy cfg.apiKey = true → req.body = .object props →
      props.lookup (lit "animal") = some (.string animal) → jsTrim animal ≠ [] →
      ∃ prompt, generatePrompt cm animal = .ok prompt ∧
        (handler cm cfg openai req).calls =
          [.object [(lit "model", .string (lit "text-davinci-003")),
            (lit "prompt", .string prompt), (lit "temperature", .number 0.6)]]) ∧
    (truthy cfg.apiKey = false → (handler cm cfg openai req).calls = []) ∧
    (∀ (props : List (JsString × JsValue)), req.body = .object props →
      (props.lookup (lit "animal") = none ∨
        ∃ s, props.lookup (lit "animal") = some (.string s) ∧ jsTrim s = []) →
      (handler cm cfg openai req).calls = []) ∧
    (handler cm cfg openai req).calls.length ≤ 1 := by
  have hno : truthy cfg.apiKey = false → (handler cm cfg openai req).calls = [] := by
    intro hkey
    rw [handler_of_missing_key cm cfg openai req hkey]
  refine ⟨?_, hno, ?_, handler_calls_length cm cfg openai req⟩
  · intro props animal hkey hbody hanimal hvalid
    cases animal with
    | nil => exact absurd rfl hvalid
    | cons c rest =>
      exact ⟨_, rfl, handler_calls_of_valid cm cfg openai req props c rest hkey hbody
        hanimal hvalid⟩
  · intro props hbody hanimal
    cases hkey : truthy cfg.apiKey with
    | false => exact hno hkey
    | true =>
      rcases hanimal with hnone | ⟨s, hsome, hs⟩
      · have hread : getProp req.body (lit "animal") = .ok .undefined := by
          rw [hbody]; simp [getProp, hnone]
        rw [handler_of_falsy cm cfg openai req _ hkey hread rfl]
      · have hread : getProp req.body (lit "animal") = .ok (.string s) := by
          rw [hbody]; exact getProp_of_lookup hsome
        rw [handler_of_blank cm cfg openai req s hkey hread hs]

theorem external_call_issued_once_when_valid_witness :
    (∃ prompt, generatePrompt asciiCase (lit "cat") = .ok prompt ∧
      (handler asciiCase ⟨.string (lit "sk-test")⟩ (fun _ => .reject .null)
          ⟨.object [(lit "animal", .string (lit "cat"))]⟩).calls =
        [.object [(lit "model", .string (lit "text-davinci-003")),
          (lit "prompt", .string prompt), (lit "temperature", .number 0.6)]]) ∧
    (handler asciiCase ⟨.undefined⟩ (fun _ => .reject .null)
        ⟨.object [(lit "animal", .string (lit "cat"))]⟩).calls = [] ∧
    (handler asciiCase ⟨.string (lit "sk-test")⟩ (fun _ => .reject .null)
        ⟨.object [(lit "animal", .string (lit "  "))]⟩).calls = [] :=
  ⟨(external_call_issued_once_when_valid asciiCase ⟨.string (lit "sk-test")⟩
      (fun _ => .reject .null) ⟨.object [(lit "animal", .string (lit "cat"))]⟩).1
      [(lit "animal", .string (lit "cat"))] (lit "cat") rfl rfl rfl (by decide),
    (external_call_issued_once_when_valid asciiCase ⟨.undefined⟩
      (fun _ => .reject .null) ⟨.object [(lit "animal", .string (lit "cat"))]⟩).2.1 rfl,
    (external_call_issued_once_when_valid asciiCase ⟨.string (lit "sk-test")⟩
      (fun _ => .reject .null) ⟨.object [(lit "animal", .string (lit "  "))]⟩).2.2.1
      [(lit "animal", .string (lit "  "))] rfl
      (Or.inr ⟨lit "  ", rfl, by decide⟩)⟩


/-! ## Exceptions that leave the handler -/

theorem getProp_ok_of_present (v : JsValue) (key : JsString)
    (hu : v ≠ .undefined) (hn : v ≠ .null) : ∃ w, getProp v key = .ok w := by
  cases v with
  | undefined => exact absurd rfl hu
  | null => exact absurd rfl hn
  | boolean b => exact ⟨_, rfl⟩
  | number q => exact ⟨_, rfl⟩
  | string s =>
    by_cases hk : key = lit "length"
    · exact ⟨_, if_pos hk⟩
    · exact ⟨_, if_neg hk⟩
  | array elems =>
    by_cases hk : key = lit "length"
    · exact ⟨_, if_pos hk⟩
    · exact ⟨_, if_neg hk⟩
  | object props => exact ⟨_, rfl⟩

theorem present_of_truthy {v : JsValue} (h : truthy v = true) :
    v ≠ .undefined ∧ v ≠ .null := by
  constructor <;> rintro rfl <;> exact Bool.false_ne_true h

theorem getProp_error_typeError {v : JsValue} {key : JsString} {e : JsValue}
    (h : getProp v key = .error e) : ∃ message, e = typeError message := by
  cases v with
  | undefined => exact ⟨_, (Except.error.inj h).symm⟩
  | null => exact ⟨_, (Except.error.inj h).symm⟩
  | boolean b => exact Except.noConfusion h
  | number q => exact Except.noConfusion h
  | string s =>
    unfold getProp at h
    split_ifs at h
  | array elems =>
    unfold getProp at h
    split_ifs at h
  | object props => exact Except.noConfusion h

theorem getIndex_error_typeError {v : JsValue} {i : Nat} {e : JsValue}
    (h : getIndex v i = .error e) : ∃ message, e = typeError message := by
  cases v with
  | undefined => exact ⟨_, (Except.error.inj h).symm⟩
  | null => exact ⟨_, (Except.error.inj h).symm⟩
  | boolean b => exact Except.noConfusion h
  | number q => exact Except.noConfusion h
  | string s =>
    unfold getIndex at h
    simp only at h
    split at h <;> exact Except.noConfusion h
  | array elems => exact Except.noConfusion h
  | object props => exact Except.noConfusion h

theorem respondSuccess_error_typeError {completion e : JsValue}
    (h : respondSuccess completion = .error e) : ∃ message, e = typeError message := by
  unfold respondSuccess at h
  cases h1 : getProp completion (lit "data") with
  | error e1 =>
    rw [h1] at h
    have he : e = e1 := (Except.error.inj h).symm
    rw [he]; exact getProp_error_typeError h1
  | ok data =>
    rw [h1] at h
    change (getProp data (lit "choices") >>= _) = _ at h
    cases h2 : getProp data (lit "choices") with
    | error e2 =>
      rw [h2] at h
      have he : e = e2 := (Except.error.inj h).symm
      rw [he]; exact getProp_error_typeError h2
    | ok choices =>
      rw [h2] at h
      change (getIndex choices 0 >>= _) = _ at h
      cases h3 : getIndex choices 0 with
      | error e3 =>
        rw [h3] at h
        have he : e = e3 := (Except.error.inj h).symm
        rw [he]; exact getIndex_error_typeError h3
      | ok choice =>
        rw [h3] at h
        change (getProp choice (lit "text") >>= _) = _ at h
        cases h4 : getProp choice (lit "text") with
        | error e4 =>
          rw [h4] at h
          have he : e = e4 := (Except.error.inj h).symm
          rw [he]; exact getProp_error_typeError h4
        | ok text =>
          rw [h4] at h
          exact Except.noConfusion h

theorem catchBlock_ok_of_convertible (e : JsValue) (hu : e ≠ .undefined) (hn : e ≠ .null)
    (hconv : ∀ response message, getProp e (lit "response") = .ok response →
      truthy response = false → getProp e (lit "message") = .ok message →
      ∃ text, toStringValue message = .ok text) :
    ∃ logs r, catchBlock e = (logs, .ok r) := by
  obtain ⟨response, hresponse⟩ := getProp_ok_of_present e (lit "response") hu hn
  obtain ⟨message, hmessage⟩ := getProp_ok_of_present e (lit "message") hu hn
  unfold catchBlock
  rw [hresponse]
  simp only
  cases ht : truthy response with
  | true =>
    obtain ⟨hu2, hn2⟩ := present_of_truthy ht
    obtain ⟨status, hstatus⟩ := getProp_ok_of_present response (lit "status") hu2 hn2
    obtain ⟨data, hdata⟩ := getProp_ok_of_present response (lit "data") hu2 hn2
    rw [hstatus, hdata]
    exact ⟨_, _, rfl⟩
  | false =>
    obtain ⟨text, htext⟩ := hconv response message hresponse ht hmessage
    rw [hmessage]
    simp only [Bool.false_eq_true, if_false]
    rw [htext]
    exact ⟨_, _, rfl⟩

theorem catchBlock_of_unconvertible (e response message thrown : JsValue)
    (hresponse : getProp e (lit "response") = .ok response)
    (hfalsy : truthy response = false)
    (hmessage : getProp e (lit "message") = .ok message)
    (hconv : toStringValue message = .error thrown) :
    catchBlock e = ([], .error thrown) := by
  unfold catchBlock
  rw [hresponse]
  simp only [hfalsy, Bool.false_eq_true, if_false]
  rw [hmessage]
  simp only
  rw [hconv]

theorem tryCatch_of_throw {cm : CaseMapping} {openai : JsValue → CallOutcome}
    {animal : JsString} {calls : List JsValue} {e thrown : JsValue}
    {logs : List LogEntry}
    (h : tryBlock cm openai animal = (calls, .error e))
    (hc : catchBlock e = (logs, .error thrown)) :
    tryCatch cm openai animal = ⟨calls, logs, none, some thrown⟩ := by
  unfold tryCatch
  rw [h]
  simp only
  rw [hc]

theorem tryCatch_responds (cm : CaseMapping) (openai : JsValue → CallOutcome)
    (c : Nat) (rest : JsString)
    (hreject : ∀ p err, openai p = .reject err → err ≠ .undefined ∧ err ≠ .null ∧
      ∀ response message, getProp err (lit "response") = .ok response →
        truthy response = false → getProp err (lit "message") = .ok message →
        ∃ text, toStringValue message = .ok text) :
    ∃ r, (tryCatch cm openai (c :: rest)).response = some r ∧
      (tryCatch cm openai (c :: rest)).thrown = none := by
  have hp : generatePrompt cm (c :: rest) =
      .ok (promptHead ++ capitalizedAnimal cm c (c :: rest) ++ promptTail) := rfl
  cases hcall : openai (completionRequest
      (promptHead ++ capitalizedAnimal cm c (c :: rest) ++ promptTail)) with
  | reject err =>
    obtain ⟨hu, hn, hconv⟩ := hreject _ _ hcall
    obtain ⟨logs, r, hcatch⟩ := catchBlock_ok_of_convertible err hu hn hconv
    rw [tryCatch_of_error (tryBlock_of_reject hp hcall) hcatch]
    exact ⟨r, rfl, rfl⟩
  | resolve completion =>
    have htry := tryBlock_of_resolve hp hcall
    cases hr : respondSuccess completion with
    | ok r =>
      rw [hr] at htry
      rw [tryCatch_of_ok htry]
      exact ⟨r, rfl, rfl⟩
    | error e =>
      rw [hr] at htry
      obtain ⟨message, rfl⟩ := respondSuccess_error_typeError hr
      rw [tryCatch_of_error htry (catchBlock_typeError message)]
      exact ⟨_, rfl, rfl⟩

theorem handler_of_non_string (cm : CaseMapping) (cfg : Configuration)
    (openai : JsValue → CallOutcome) (req : Request) (v : JsValue)
    (hkey : truthy cfg.apiKey = true)
    (hread : getProp req.body (lit "animal") = .ok v)
    (hv : truthy v = true) (hnot : ∀ s, v ≠ .string s) :
    handler cm cfg openai req =
      ⟨[], [], none, some (typeError (lit "animal.trim is not a function"))⟩ := by
  cases v with
  | string s => exact absurd rfl (hnot s)
  | undefined => simp [handler, hkey, hread, hv]
  | null => simp [handler, hkey, hread, hv]
  | boolean b => simp [handler, hkey, hread, hv]
  | number q => simp [handler, hkey, hread, hv]
  | array elems => simp [handler, hkey, hread, hv]
  | object ps => simp [handler, hkey, hread, hv]

theorem handler_of_missing_body (cm : CaseMapping) (cfg : Configuration)
    (openai : JsValue → CallOutcome) (req : Request)
    (hkey : truthy cfg.apiKey = true)
    (hbody : req.body = .undefined ∨ req.body = .null) :
    (handler cm cfg openai req).response = none ∧
      ((handler cm cfg openai req).thrown = some (readError "undefined" (lit "animal")) ∨
        (handler cm cfg openai req).thrown = some (readError "null" (lit "animal"))) := by
  rcases hbody with h | h
  · have hrun : handler cm cfg openai req =
        ⟨[], [], none, some (readError "undefined" (lit "animal"))⟩ := by
      simp [handler, hkey, h, getProp]
    rw [hrun]
    exact ⟨rfl, Or.inl rfl⟩
  · have hrun : handler cm cfg openai req =
        ⟨[], [], none, some (readError "null" (lit "animal"))⟩ := by
      simp [handler, hkey, h, getProp]
    rw [hrun]
    exact ⟨rfl, Or.inr rfl⟩

/-- C9, as stated, fails. With the credential present no response is sent and an
exception leaves the handler in each of these runs: the `animal` field is the number 5, so
that `animal.trim()` throws outside the try block; the request has no body, so that
`req.body.animal` throws outside the try block; the external call rejects with `null`, so
that `error.response` throws inside the catch block; the external call rejects with an
error whose message is `{ toString: 1 }`, so that the template literal of the log line
throws inside the catch block. -/
theorem handler_throws_without_response :
    ((handler asciiCase ⟨.string (lit "sk-test")⟩ (fun _ => .resolve .null)
        ⟨.object [(lit "animal", .number 5)]⟩).response = none ∧
      (handler asciiCase ⟨.string (lit "sk-test")⟩ (fun _ => .resolve .null)
        ⟨.object [(lit "animal", .number 5)]⟩).thrown =
          some (typeError (lit "animal.trim is not a function"))) ∧
    ((handler asciiCase ⟨.string (lit "sk-test")⟩ (fun _ => .resolve .null)
        ⟨.undefined⟩).response = none ∧
      (handler asciiCase ⟨.string (lit "sk-test")⟩ (fun _ => .resolve .null)
        ⟨.undefined⟩).thrown =
          some (typeError
            (lit "Cannot read properties of undefined (reading 'animal')"))) ∧
    ((handler asciiCase ⟨.string (lit "sk-test")⟩ (fun _ => .reject .null)
        ⟨.object [(lit "animal", .string (lit "cat"))]⟩).response = none ∧
      (handler asciiCase ⟨.string (lit "sk-test")⟩ (fun _ => .reject .null)
        ⟨.object [(lit "animal", .string (lit "cat"))]⟩).thrown =
          some (typeError
            (lit "Cannot read properties of null (reading 'response')"))) ∧
    ((handler asciiCase ⟨.string (lit "sk-test")⟩
        (fun _ => .reject (.object [(lit "message",
          .object [(lit "toString", .number 1)])]))
        ⟨.object [(lit "animal", .string (lit "cat"))]⟩).response = none ∧
      (handler asciiCase ⟨.string (lit "sk-test")⟩
        (fun _ => .reject (.object [(lit "message",
          .object [(lit "toString", .number 1)])]))
        ⟨.object [(lit "animal", .string (lit "cat"))]⟩).thrown =
          some (typeError (lit "Cannot convert object to primitive value"))) :=
  ⟨⟨rfl, rfl⟩, ⟨rfl, rfl⟩, ⟨rfl, rfl⟩, ⟨rfl, rfl⟩⟩

/-- C9, amended. The handler sends a response and throws nothing when the credential is
absent, and also when reading `animal` from the body does not throw, `animal` is absent,
falsy or a string, and a rejection of the external call is neither `undefined` nor `null`
and, if it has no truthy `response`, has a `message` that can be converted to a string.
With the credential present each of the other cases throws and sends nothing: a body that
is `undefined` or `null`; a truthy `animal` that is not a string; a valid animal with a
rejection that is `undefined` or `null`; a valid animal with a rejection that has no
truthy `response` and a `message` whose conversion to a string throws. -/
theorem handler_responds_unless_read_or_conversion_throws (cm : CaseMapping)
    (cfg : Configuration) (openai : JsValue → CallOutcome) (req : Request) :
    (truthy cfg.apiKey = false →
      ∃ r, (handler cm cfg openai req).response = some r ∧
        (handler cm cfg openai req).thrown = none) ∧
    (∀ v, getProp req.body (lit "animal") = .ok v →
      (truthy v = false ∨ ∃ s, v = .string s) →
      (∀ p err, openai p = .reject err → err ≠ .undefined ∧ err ≠ .null ∧
        ∀ response message, getProp err (lit "response") = .ok response →
          truthy response = false → getProp err (lit "message") = .ok message →
          ∃ text, toStringValue message = .ok text) →
      ∃ r, (handler cm cfg openai req).response = some r ∧
        (handler cm cfg openai req).thrown = none) ∧
    (truthy cfg.apiKey = true → (req.body = .undefined ∨ req.body = .null) →
      (handler cm cfg openai req).response = none ∧
      ((handler cm cfg openai req).thrown = some (readError "undefined" (lit "animal")) ∨
        (handler cm cfg openai req).thrown = some (readError "null" (lit "animal")))) ∧
    (∀ v, truthy cfg.apiKey = true → getProp req.body (lit "animal") = .ok v →
      truthy v = true → (∀ s, v ≠ .string s) →
      (handler cm cfg openai req).response = none ∧
      (handler cm cfg openai req).thrown =
        some (typeError (lit "animal.trim is not a function"))) ∧
    (∀ animal prompt err, truthy cfg.apiKey = true →
      getProp req.body (lit "animal") = .ok (.string animal) → jsTrim animal ≠ [] →
      generatePrompt cm animal = .ok prompt →
      openai (completionRequest prompt) = .reject err →
      (err = .undefined ∨ err = .null) →
      (handler cm cfg openai req).response = none ∧
      ((handler cm cfg openai req).thrown =
          some (readError "undefined" (lit "response")) ∨
        (handler cm cfg openai req).thrown = some (readError "null" (lit "response")))) ∧
    (∀ animal prompt err response message thrown, truthy cfg.apiKey = true →
      getProp req.body (lit "animal") = .ok (.string animal) → jsTrim animal ≠ [] →
      generatePrompt cm animal = .ok prompt →
      openai (completionRequest prompt) = .reject err →
      getProp err (lit "response") = .ok response → truthy response = false →
      getProp err (lit "message") = .ok message →
      toStringValue message = .error thrown →
      (handler cm cfg openai req).response = none ∧
      (handler cm cfg openai req).thrown = some thrown) := by
  refine ⟨?_, ?_, ?_, ?_, ?_, ?_⟩
  · intro hkey
    rw [handler_of_missing_key cm cfg openai req hkey]
    exact ⟨_, rfl, rfl⟩
  · intro v hread hv hreject
    cases hkey : truthy cfg.apiKey with
    | false =>
      rw [handler_of_missing_key cm cfg openai req hkey]
      exact ⟨_, rfl, rfl⟩
    | true =>
      rcases hv with hfalsy | ⟨s, rfl⟩
      · rw [handler_of_falsy cm cfg openai req v hkey hread hfalsy]
        exact ⟨_, rfl, rfl⟩
      · by_cases hs : jsTrim s = []
        · rw [handler_of_blank cm cfg openai req s hkey hread hs]
          exact ⟨_, rfl, rfl⟩
        · rw [handler_of_string cm cfg openai req s hkey hread hs]
          cases s with
          | nil => exact absurd rfl hs
          | cons c rest => exact tryCatch_responds cm openai c rest hreject
  · intro hkey hbody
    exact handler_of_missing_body cm cfg openai req hkey hbody
  · intro v hkey hread hv hnot
    rw [handler_of_non_string cm cfg openai req v hkey hread hv hnot]
    exact ⟨rfl, rfl⟩
  · intro animal prompt err hkey hread hvalid hp hcall herr
    rw [handler_of_string cm cfg openai req animal hkey hread hvalid]
    have htry := tryBlock_of_reject hp hcall
    rcases herr with h | h
    · rw [h] at htry
      have hc : catchBlock .undefined =
          ([], .error (readError "undefined" (lit "response"))) := rfl
      rw [tryCatch_of_throw htry hc]
      exact ⟨rfl, Or.inl rfl⟩
    · rw [h] at htry
      have hc : catchBlock .null =
          ([], .error (readError "null" (lit "response"))) := rfl
      rw [tryCatch_of_throw htry hc]
      exact ⟨rfl, Or.inr rfl⟩
  · intro animal prompt err response message thrown hkey hread hvalid hp hcall hresponse
      hfalsy hmessage hconv
    rw [handler_of_string cm cfg openai req animal hkey hread hvalid]
    rw [tryCatch_of_throw (tryBlock_of_reject hp hcall)
      (catchBlock_of_unconvertible err response message thrown hresponse hfalsy hmessage
        hconv)]
    exact ⟨rfl, rfl⟩

theorem handler_responds_unless_read_or_conversion_throws_witness :
    (∃ r, (handler asciiCase ⟨.string (lit "sk-test")⟩
        (fun _ => .reject (.object [(lit "message", .string (lit "ECONNREFUSED"))]))
        ⟨.object [(lit "animal", .string (lit "cat"))]⟩).response = some r ∧
      (handler asciiCase ⟨.string (lit "sk-test")⟩
        (fun _ => .reject (.object [(lit "message", .string (lit "ECONNREFUSED"))]))
        ⟨.object [(lit "animal", .string (lit "cat"))]⟩).thrown = none) ∧
    ((handler asciiCase ⟨.string (lit "sk-test")⟩ (fun _ => .resolve .null)
        ⟨.object [(lit "animal", .array [.string (lit "cat")])]⟩).response = none ∧
      (handler asciiCase ⟨.string (lit "sk-test")⟩ (fun _ => .resolve .null)
        ⟨.object [(lit "animal", .array [.string (lit "cat")])]⟩).thrown =
          some (typeError (lit "animal.trim is not a function"))) :=
  ⟨(handler_responds_unless_read_or_conversion_throws asciiCase ⟨.string (lit "sk-test")⟩
      (fun _ => .reject (.object [(lit "message", .string (lit "ECONNREFUSED"))]))
      ⟨.object [(lit "animal", .string (lit "cat"))]⟩).2.1 (.string (lit "cat")) rfl
      (Or.inr ⟨lit "cat", rfl⟩)
      (fun _ err h => by
        have he : err = .object [(lit "message", .string (lit "ECONNREFUSED"))] :=
          (CallOutcome.reject.inj h).symm
        rw [he]
        refine ⟨fun h2 => JsValue.noConfusion h2, fun h2 => JsValue.noConfusion h2, ?_⟩
        intro response message _ _ hm
        have hmsg : message = .string (lit "ECONNREFUSED") := (Except.ok.inj hm).symm
        rw [hmsg]
        exact ⟨_, rfl⟩),
    (handler_responds_unless_read_or_conversion_throws asciiCase ⟨.string (lit "sk-test")⟩
      (fun _ => .resolve .null)
      ⟨.object [(lit "animal", .array [.string (lit "cat")])]⟩).2.2.2.1
      (.array [.string (lit "cat")]) rfl rfl rfl (fun s h => JsValue.noConfusion h)⟩

end Generate
